import Mathlib

/-!
Shallow embedding of the storage-engine descriptor module (`src/engines.py`):
the two-phase "declare, then attach-and-resolve" protocol for ClickHouse
engine clauses, and the per-variant ordered parameter lists.

Python objects are modelled as immutable Lean structures; attribute mutation
performed by `_set_parent` is modelled by returning an updated copy; raised
exceptions are modelled with `Except EngineError`.  The external escaping
primitive (`escaper.escape_string`) is kept opaque: an escaped string is
represented symbolically by the `EngineParam.escaped` constructor.
-/

/-- A concrete table column.  Column objects are opaque values with a single
identity; here they are identified by their name. -/
structure Column where
  name : String
deriving DecidableEq, Repr

/-- An opaque SQL expression: a `ClauseElement` that is not a column and
contains no column (e.g. a `text(...)` fragment), passed through unchanged by
the key-expression machinery. -/
structure SqlExpr where
  sql : String
deriving DecidableEq, Repr

/-- The table a descriptor is attached to, reduced to its final column
collection. -/
abbrev Table := List Column

/-- Keyed lookup `table.c[name]` in the table's column collection. -/
def Table.lookup (t : Table) (s : String) : Option Column :=
  List.find? (fun c => c.name == s) t

/-- Error taxonomy of the module: construction-time validation failure
(the source raises a bare `Exception`), a column reference that does not
resolve at attach (`KeyError`), and a post-attach accessor invoked before
attach (`IndexError` on the empty column collection). -/
inductive EngineError where
  | invalidConfiguration
  | unknownColumn
  | notAttached
deriving DecidableEq, Repr

/-- One user-supplied item of a key-expression sequence, classified the way
`ColumnCollectionMixin._extract_col_expression_collection` classifies it:
a non-`ClauseElement` input is a bare name string; a column object is a
`ClauseElement` that contributes itself to the pending column list; an opaque
expression is a `ClauseElement` containing no column and contributes nothing
to the pending column list. -/
inductive KeyInput where
  | expr (e : SqlExpr)
  | name (s : String)
  | col (c : Column)
deriving DecidableEq, Repr

/-- What `self.expressions` stores for one input: the `expr` component
yielded by `_extract_col_expression_collection` — the original opaque
expression, the raw name string, or the column object. -/
inductive StoredExpr where
  | clause (e : SqlExpr)
  | str (s : String)
  | col (c : Column)
deriving DecidableEq, Repr

/-- A `_pending_colargs` entry: a name string to resolve at attach time, or a
column object used as is. -/
abbrev ColArg := String ⊕ Column

/-- The `add_element` component for one input: names and column objects are
appended to the pending column list; for an opaque expression `add_element`
is `None` and nothing is appended. -/
def KeyInput.addElement : KeyInput → Option ColArg
  | .expr _ => none
  | .name s => some (Sum.inl s)
  | .col c => some (Sum.inr c)

/-- The `expr` component stored in `self.expressions` for one input. -/
def KeyInput.storedExpr : KeyInput → StoredExpr
  | .expr e => .clause e
  | .name s => .str s
  | .col c => .col c

/-- `_col_expressions`, one entry: a string is looked up in the attached
table's columns (a miss raises), a column object passes through. -/
def resolveColArg (t : Table) : ColArg → Except EngineError Column
  | Sum.inl s =>
    match t.lookup s with
    | some c => Except.ok c
    | none => Except.error EngineError.unknownColumn
  | Sum.inr c => Except.ok c

/-- Resolve every pending column argument against the table, in declaration
order, failing on the first miss. -/
def resolveColArgs (t : Table) : List ColArg → Except EngineError (List Column)
  | [] => Except.ok []
  | a :: rest =>
    match resolveColArg t a with
    | Except.error e => Except.error e
    | Except.ok c =>
      match resolveColArgs t rest with
      | Except.error e => Except.error e
      | Except.ok cs => Except.ok (c :: cs)

/-- `TableCol`: a single pending column reference plus the column collection
that `_set_parent` populates at attach time. -/
structure TableCol where
  pending : ColArg
  columns : List Column
deriving DecidableEq, Repr

/-- `TableCol(column)`: one pending argument, an empty collection. -/
def TableCol.make (column : ColArg) : TableCol :=
  { pending := column, columns := [] }

/-- `TableCol._set_parent`: resolve the pending argument against the table
and add the result to `self.columns`. -/
def TableCol.set_parent (tc : TableCol) (t : Table) : Except EngineError TableCol :=
  match resolveColArg t tc.pending with
  | Except.error e => Except.error e
  | Except.ok c => Except.ok { tc with columns := tc.columns ++ [c] }

/-- `TableCol.get_column`: `list(self.columns)[0]`.  On the empty collection
the source raises `IndexError`, which is exactly the accessor being invoked
before attach. -/
def TableCol.get_column (tc : TableCol) : Except EngineError Column :=
  match tc.columns with
  | [] => Except.error EngineError.notAttached
  | c :: _ => Except.ok c

/-- `KeysExpressionOrColumn`: the stored expression for every input, the
pending column arguments for the column-shaped inputs, and the column
collection populated at attach time. -/
structure KeysExpressionOrColumn where
  expressions : List StoredExpr
  pending : List ColArg
  columns : List Column
deriving DecidableEq, Repr

/-- `KeysExpressionOrColumn(*expressions)`: classify each input once at
construction; `self.expressions` gets one entry per input, the pending
column list gets one entry per column-shaped input. -/
def KeysExpressionOrColumn.ofInputs (inputs : List KeyInput) : KeysExpressionOrColumn :=
  { expressions := inputs.map KeyInput.storedExpr
  , pending := inputs.filterMap KeyInput.addElement
  , columns := [] }

/-- `KeysExpressionOrColumn._set_parent`: resolve all pending arguments in
order and add them to `self.columns`. -/
def KeysExpressionOrColumn.set_parent (k : KeysExpressionOrColumn) (t : Table) :
    Except EngineError KeysExpressionOrColumn :=
  match resolveColArgs t k.pending with
  | Except.error e => Except.error e
  | Except.ok cs => Except.ok { k with columns := k.columns ++ cs }

/-- `itertools.zip_longest` (via `util.zip_longest`) with fill value `None`. -/
def zipLongest : List α → List β → List (Option α × Option β)
  | [], bs => bs.map (fun b => (none, some b))
  | a :: arest, [] => (some a, none) :: zipLongest arest []
  | a :: arest, b :: brest => (some a, some b) :: zipLongest arest brest

/-- One slot of the rendered output: the original opaque expression, a
column, or Python `None` (produced when `zip_longest` padding reaches the
`else` branch). -/
inductive Rendered where
  | rexpr (e : SqlExpr)
  | rcol (c : Column)
  | rnone
deriving DecidableEq, Repr

/-- `expr if isinstance(expr, ClauseElement) else colexpr` for one zipped
pair.  A stored column object is itself a `ClauseElement` and is returned
directly; a stored string is not, so the paired entry of `self.columns`
(possibly `None`) is returned. -/
def renderPair : Option StoredExpr × Option Column → Rendered
  | (some (StoredExpr.clause e), _) => Rendered.rexpr e
  | (some (StoredExpr.col c), _) => Rendered.rcol c
  | (some (StoredExpr.str _), some c) => Rendered.rcol c
  | (some (StoredExpr.str _), none) => Rendered.rnone
  | (none, some c) => Rendered.rcol c
  | (none, none) => Rendered.rnone

/-- `get_expressions_or_columns`: zip `self.expressions` with `self.columns`
positionally (`zip_longest`) and pick the expression or the paired column per
slot. -/
def KeysExpressionOrColumn.get_expressions_or_columns (k : KeysExpressionOrColumn) :
    List Rendered :=
  (zipLongest k.expressions k.columns).map renderPair

/-- Claim C1: the round-trip fails on the code.  With the ordered mix
`[opaque expression "toYYYYMM(d)", column name "a"]` attached to a table that
contains column `a`, `get_expressions_or_columns` pairs `self.expressions`
with `self.columns` index-wise via `zip_longest`, so the column-name slot at
position 1 is paired with `None` (the single resolved column was consumed by
position 0) and renders as `None` instead of the resolved column `a`. -/
theorem C1_zip_longest_misalignment :
    (match (KeysExpressionOrColumn.ofInputs
              [KeyInput.expr ⟨"toYYYYMM(d)"⟩, KeyInput.name "a"]).set_parent
            [⟨"a"⟩, ⟨"d"⟩] with
     | Except.ok k => k.get_expressions_or_columns
     | Except.error _ => []) =
      [Rendered.rexpr ⟨"toYYYYMM(d)"⟩, Rendered.rnone] ∧
    Rendered.rnone ≠ Rendered.rcol (⟨"a"⟩ : Column) := by
  exact ⟨by decide, by decide⟩

/-- Python truthiness of an optional string field: `None` and the empty
string are falsy, any other string is truthy. -/
def truthy : Option String → Bool
  | none => false
  | some s => !(s == "")

/-- The raw string held by an optional string field; reading the field in a
branch guarded by its truthiness always hits the `some` case. -/
def pyStr : Option String → String
  | none => ""
  | some s => s

/-- One entry of the ordered parameter list `get_params` returns.  Values the
source passes through `escaper.escape_string` are represented symbolically by
`escaped` (the escaping primitive is external and opaque); `item` is a single
rendered key slot, `keyTuple` a rendered sequence grouped as one tuple. -/
inductive EngineParam where
  | escaped (s : String)
  | col (c : Column)
  | item (r : Rendered)
  | keyTuple (rs : List Rendered)
  | int (n : Int)
  | str (s : String)
deriving DecidableEq, Repr

/-- `MergeTree` descriptor state: the owned column references, the tuning
constant, the replication coordinates, and the table reference the attach
hook sets. -/
structure MergeTree where
  date_col : TableCol
  key_cols : KeysExpressionOrColumn
  sampling : Option KeysExpressionOrColumn
  index_granularity : Int
  replica_name : Option String
  replica_table_path : Option String
  table : Option Table
deriving DecidableEq, Repr

/-- `self.index_granularity = 8192` followed by the guarded overwrite
`if index_granularity is not None: self.index_granularity = index_granularity`;
the supplied value wins whenever it was supplied at all, 0 included. -/
def granDefault : Option Int → Int
  | none => 8192
  | some g => g

/-- `MergeTree.__init__`: wrap the date column and key expressions, default
the granularity to 8192 unless one was supplied (`is not None`, so 0 is
kept), wrap the sampling input if supplied, store the replication
coordinates, and raise when exactly one coordinate is truthy
(`replica_table_path and not replica_name or (not replica_table_path and
replica_name)`). -/
def MergeTree.make (date_col : ColArg) (key_expressions : List KeyInput)
    (sampling : Option KeyInput) (index_granularity : Option Int)
    (replica_name : Option String) (replica_table_path : Option String) :
    Except EngineError MergeTree :=
  if (truthy replica_table_path && !truthy replica_name)
      || (!truthy replica_table_path && truthy replica_name) then
    Except.error EngineError.invalidConfiguration
  else
    Except.ok
      { date_col := TableCol.make date_col
      , key_cols := KeysExpressionOrColumn.ofInputs key_expressions
      , sampling := sampling.map (fun s => KeysExpressionOrColumn.ofInputs [s])
      , index_granularity := granDefault index_granularity
      , replica_name := replica_name
      , replica_table_path := replica_table_path
      , table := none }

/-- `MergeTree._set_parent`: record the table (`Engine._set_parent`), then
attach `date_col`, `key_cols`, and `sampling` when present, in that order. -/
def MergeTree.set_parent (m : MergeTree) (t : Table) : Except EngineError MergeTree :=
  match m.date_col.set_parent t with
  | Except.error e => Except.error e
  | Except.ok d =>
    match m.key_cols.set_parent t with
    | Except.error e => Except.error e
    | Except.ok k =>
      match m.sampling with
      | none =>
        Except.ok { m with table := some t, date_col := d, key_cols := k }
      | some smp =>
        match smp.set_parent t with
        | Except.error e => Except.error e
        | Except.ok s =>
          Except.ok { m with table := some t, date_col := d, key_cols := k,
                             sampling := some s }

/-- `MergeTree.get_params`: replication pair when `replica_name` is truthy,
then the resolved date column, then the first rendered sampling slot when
sampling is present (`[0]` raises on an empty rendering), then the rendered
key tuple, then the granularity. -/
def MergeTree.get_params (m : MergeTree) : Except EngineError (List EngineParam) :=
  let params : List EngineParam :=
    if truthy m.replica_name then
      [EngineParam.escaped (pyStr m.replica_table_path),
       EngineParam.escaped (pyStr m.replica_name)]
    else []
  match m.date_col.get_column with
  | Except.error e => Except.error e
  | Except.ok dc =>
    let params := params ++ [EngineParam.col dc]
    match m.sampling with
    | some smp =>
      match smp.get_expressions_or_columns with
      | [] => Except.error EngineError.notAttached
      | r :: _ =>
        Except.ok (params ++ [EngineParam.item r] ++
          [EngineParam.keyTuple m.key_cols.get_expressions_or_columns,
           EngineParam.int m.index_granularity])
    | none =>
      Except.ok (params ++
        [EngineParam.keyTuple m.key_cols.get_expressions_or_columns,
         EngineParam.int m.index_granularity])

/-- `MergeTree.name`: `("Replicated" if self.replica_name else "") +
self.__class__.__name__`, for an instance whose class is `MergeTree`. -/
def MergeTree.name (m : MergeTree) : String :=
  (if truthy m.replica_name then "Replicated" else "") ++ "MergeTree"

/-- `CollapsingMergeTree`: the inherited `MergeTree` state plus the owned
sign column.  Its constructor passes no replication coordinates to the base
constructor. -/
structure CollapsingMergeTree where
  core : MergeTree
  sign_col : TableCol
deriving DecidableEq, Repr

/-- `CollapsingMergeTree.__init__`: call the base constructor with
`replica_name=None, replica_table_path=None`, then wrap the sign column. -/
def CollapsingMergeTree.make (date_col : ColArg) (key_expressions : List KeyInput)
    (sign_col : ColArg) (sampling : Option KeyInput) (index_granularity : Option Int) :
    Except EngineError CollapsingMergeTree :=
  match MergeTree.make date_col key_expressions sampling index_granularity none none with
  | Except.error e => Except.error e
  | Except.ok core => Except.ok { core := core, sign_col := TableCol.make sign_col }

/-- `CollapsingMergeTree._set_parent`: base attach, then attach the sign
column. -/
def CollapsingMergeTree.set_parent (c : CollapsingMergeTree) (t : Table) :
    Except EngineError CollapsingMergeTree :=
  match c.core.set_parent t with
  | Except.error e => Except.error e
  | Except.ok core =>
    match c.sign_col.set_parent t with
    | Except.error e => Except.error e
    | Except.ok sc => Except.ok { core := core, sign_col := sc }

/-- `CollapsingMergeTree.get_params`: the base params with the resolved sign
column appended. -/
def CollapsingMergeTree.get_params (c : CollapsingMergeTree) :
    Except EngineError (List EngineParam) :=
  match c.core.get_params with
  | Except.error e => Except.error e
  | Except.ok ps =>
    match c.sign_col.get_column with
    | Except.error e => Except.error e
    | Except.ok sc => Except.ok (ps ++ [EngineParam.col sc])

/-- The inherited `MergeTree.name` on an instance whose class is
`CollapsingMergeTree`. -/
def CollapsingMergeTree.name (c : CollapsingMergeTree) : String :=
  (if truthy c.core.replica_name then "Replicated" else "") ++ "CollapsingMergeTree"

/-- `SummingMergeTree`: the inherited `MergeTree` state plus the optional
summing-columns list.  Its constructor passes no replication coordinates to
the base constructor. -/
structure SummingMergeTree where
  core : MergeTree
  summing_cols : Option KeysExpressionOrColumn
deriving DecidableEq, Repr

/-- `SummingMergeTree.__init__`: call the base constructor with
`replica_name=None, replica_table_path=None`, then wrap `summing_cols` when
supplied (`is not None`). -/
def SummingMergeTree.make (date_col : ColArg) (key_expressions : List KeyInput)
    (summing_cols : Option (List KeyInput)) (sampling : Option KeyInput)
    (index_granularity : Option Int) : Except EngineError SummingMergeTree :=
  match MergeTree.make date_col key_expressions sampling index_granularity none none with
  | Except.error e => Except.error e
  | Except.ok core =>
    Except.ok { core := core
              , summing_cols := summing_cols.map KeysExpressionOrColumn.ofInputs }

/-- `SummingMergeTree._set_parent`: base attach, then attach `summing_cols`
when present. -/
def SummingMergeTree.set_parent (s : SummingMergeTree) (t : Table) :
    Except EngineError SummingMergeTree :=
  match s.core.set_parent t with
  | Except.error e => Except.error e
  | Except.ok core =>
    match s.summing_cols with
    | none => Except.ok { core := core, summing_cols := none }
    | some kc =>
      match kc.set_parent t with
      | Except.error e => Except.error e
      | Except.ok kc2 => Except.ok { core := core, summing_cols := some kc2 }

/-- `SummingMergeTree.get_params`: the base params, with the rendered
summing-columns tuple appended when `summing_cols` is present. -/
def SummingMergeTree.get_params (s : SummingMergeTree) :
    Except EngineError (List EngineParam) :=
  match s.core.get_params with
  | Except.error e => Except.error e
  | Except.ok ps =>
    match s.summing_cols with
    | some kc => Except.ok (ps ++ [EngineParam.keyTuple kc.get_expressions_or_columns])
    | none => Except.ok ps

/-- The inherited `MergeTree.name` on an instance whose class is
`SummingMergeTree`. -/
def SummingMergeTree.name (s : SummingMergeTree) : String :=
  (if truthy s.core.replica_name then "Replicated" else "") ++ "SummingMergeTree"

/-- `Buffer`: nine scalar fields and the table reference the attach hook
sets; no column references to resolve. -/
structure Buffer where
  database : String
  table_name : String
  num_layers : Int
  min_time : Int
  max_time : Int
  min_rows : Int
  max_rows : Int
  min_bytes : Int
  max_bytes : Int
  table : Option Table
deriving DecidableEq, Repr

/-- `Buffer.get_params`: the nine fields in declaration order, unescaped. -/
def Buffer.get_params (b : Buffer) : List EngineParam :=
  [EngineParam.str b.database,
   EngineParam.str b.table_name,
   EngineParam.int b.num_layers,
   EngineParam.int b.min_time,
   EngineParam.int b.max_time,
   EngineParam.int b.min_rows,
   EngineParam.int b.max_rows,
   EngineParam.int b.min_bytes,
   EngineParam.int b.max_bytes]

/-- `MergeTree.get_params` in state-passing form: the body is re-traced
statement by statement, threading the descriptor the way the interpreter
threads `self`, and the second component is the descriptor state after the
call.  The source body only reads attributes and grows the local `params`
list, so every exit returns the descriptor it received. -/
def MergeTree.get_paramsS (m : MergeTree) :
    Except EngineError (List EngineParam) × MergeTree :=
  let params : List EngineParam :=
    if truthy m.replica_name then
      [EngineParam.escaped (pyStr m.replica_table_path),
       EngineParam.escaped (pyStr m.replica_name)]
    else []
  match m.date_col.get_column with
  | Except.error e => (Except.error e, m)
  | Except.ok dc =>
    let params := params ++ [EngineParam.col dc]
    match m.sampling with
    | some smp =>
      match smp.get_expressions_or_columns with
      | [] => (Except.error EngineError.notAttached, m)
      | r :: _ =>
        (Except.ok (params ++ [EngineParam.item r] ++
          [EngineParam.keyTuple m.key_cols.get_expressions_or_columns,
           EngineParam.int m.index_granularity]), m)
    | none =>
      (Except.ok (params ++
        [EngineParam.keyTuple m.key_cols.get_expressions_or_columns,
         EngineParam.int m.index_granularity]), m)

/-- `Buffer.get_params` in state-passing form; the body only reads the nine
fields. -/
def Buffer.get_paramsS (b : Buffer) : List EngineParam × Buffer :=
  (b.get_params, b)

/-- `Memory`: an engine with no fields. -/
structure Memory where
deriving DecidableEq, Repr

/-- `Memory.get_params`: an empty parameter list. -/
def Memory.get_params (_mem : Memory) : List EngineParam :=
  []

/-- `Merge`: a database name and a table-name pattern. -/
structure Merge where
  db : String
  regexp : String
deriving DecidableEq, Repr

/-- `Merge.get_params`: the database unescaped, the pattern escaped. -/
def Merge.get_params (mg : Merge) : List EngineParam :=
  [EngineParam.str mg.db, EngineParam.escaped mg.regexp]

/-- Eliminating a successful `MergeTree.make`: the truthiness guard on the
replication pair is false and the descriptor is the constructed literal. -/
theorem MergeTree.make_ok {dc : ColArg} {ke : List KeyInput} {smp : Option KeyInput}
    {g : Option Int} {rn rp : Option String} {m : MergeTree}
    (h : MergeTree.make dc ke smp g rn rp = Except.ok m) :
    ((truthy rp && !truthy rn) || (!truthy rp && truthy rn)) = false ∧
    m = { date_col := TableCol.make dc
        , key_cols := KeysExpressionOrColumn.ofInputs ke
        , sampling := smp.map (fun s => KeysExpressionOrColumn.ofInputs [s])
        , index_granularity := granDefault g
        , replica_name := rn, replica_table_path := rp, table := none } := by
  unfold MergeTree.make at h
  split at h
  · cases h
  · next hcond =>
    refine ⟨by simpa using hcond, ?_⟩
    cases h
    rfl

/-- A successful `MergeTree.make` whose guard is false, in introduction
form. -/
theorem MergeTree.make_ok_of_guard {dc : ColArg} {ke : List KeyInput}
    {smp : Option KeyInput} {g : Option Int} {rn rp : Option String}
    (hcond : ((truthy rp && !truthy rn) || (!truthy rp && truthy rn)) = false) :
    MergeTree.make dc ke smp g rn rp = Except.ok
      { date_col := TableCol.make dc
      , key_cols := KeysExpressionOrColumn.ofInputs ke
      , sampling := smp.map (fun s => KeysExpressionOrColumn.ofInputs [s])
      , index_granularity := granDefault g
      , replica_name := rn, replica_table_path := rp, table := none } := by
  unfold MergeTree.make
  split
  · next hc => rw [hcond] at hc; cases hc
  · rfl

/-- `KeysExpressionOrColumn._set_parent` only grows the column collection:
the stored expressions and the pending arguments are untouched. -/
theorem KeysExpressionOrColumn.set_parent_expressions {k : KeysExpressionOrColumn}
    {t : Table} {k' : KeysExpressionOrColumn} (h : k.set_parent t = Except.ok k') :
    k'.expressions = k.expressions ∧ k'.pending = k.pending := by
  unfold KeysExpressionOrColumn.set_parent at h
  split at h
  · cases h
  · cases h
    exact ⟨rfl, rfl⟩

/-- Attach preserves every `MergeTree` field the parameter list depends on,
apart from populating the owned column collections. -/
theorem MergeTree.set_parent_fields {m : MergeTree} {t : Table} {m' : MergeTree}
    (h : m.set_parent t = Except.ok m') :
    m'.replica_name = m.replica_name ∧ m'.replica_table_path = m.replica_table_path ∧
    m'.index_granularity = m.index_granularity ∧
    m'.key_cols.expressions = m.key_cols.expressions ∧
    ((m.sampling = none ∧ m'.sampling = none) ∨
     (∃ k k', m.sampling = some k ∧ m'.sampling = some k' ∧
       k'.expressions = k.expressions)) := by
  unfold MergeTree.set_parent at h
  split at h
  · cases h
  · next hd =>
    split at h
    · cases h
    · next hk =>
      split at h
      · next hs =>
        cases h
        exact ⟨rfl, rfl, rfl, (KeysExpressionOrColumn.set_parent_expressions hk).1,
          Or.inl ⟨hs, hs⟩⟩
      · next smp hs =>
        split at h
        · cases h
        · next hsmp =>
          cases h
          exact ⟨rfl, rfl, rfl, (KeysExpressionOrColumn.set_parent_expressions hk).1,
            Or.inr ⟨smp, _, hs, rfl,
              (KeysExpressionOrColumn.set_parent_expressions hsmp).1⟩⟩

/-- A list with a nonempty expression side always renders to a nonempty
sequence: `zip_longest` emits at least one pair. -/
theorem KeysExpressionOrColumn.rendered_cons {k : KeysExpressionOrColumn}
    {e : StoredExpr} {es : List StoredExpr} (h : k.expressions = e :: es) :
    ∃ r rs, k.get_expressions_or_columns = r :: rs := by
  unfold KeysExpressionOrColumn.get_expressions_or_columns
  rw [h]
  cases k.columns with
  | nil => exact ⟨_, _, rfl⟩
  | cons c cs => exact ⟨_, _, rfl⟩

/-- `resolveColArg` can only fail with an unresolved column. -/
theorem resolveColArg_error {t : Table} {a : ColArg} {e : EngineError}
    (h : resolveColArg t a = Except.error e) : e = EngineError.unknownColumn := by
  rcases a with s | c
  · simp only [resolveColArg] at h
    cases hl : Table.lookup t s with
    | some c =>
      simp only [hl] at h
      exact Except.noConfusion h
    | none =>
      simp only [hl] at h
      cases h
      rfl
  · simp only [resolveColArg] at h
    exact Except.noConfusion h

/-- Eliminating a successful `MergeTree.get_params`: the date column
resolved, and the list is exactly the replication pair (when the replica
name is truthy), the date column, the optional single sampling slot, the
rendered key tuple, and the granularity, in that order. -/
theorem MergeTree.get_params_ok {m : MergeTree} {ps : List EngineParam}
    (h : m.get_params = Except.ok ps) :
    ∃ dc tail, m.date_col.get_column = Except.ok dc ∧
      ps = (if truthy m.replica_name then
              [EngineParam.escaped (pyStr m.replica_table_path),
               EngineParam.escaped (pyStr m.replica_name)]
            else []) ++ [EngineParam.col dc] ++ tail ++
            [EngineParam.keyTuple m.key_cols.get_expressions_or_columns,
             EngineParam.int m.index_granularity] ∧
      ((m.sampling = none ∧ tail = []) ∨
       (∃ smp r rest, m.sampling = some smp ∧
         smp.get_expressions_or_columns = r :: rest ∧ tail = [EngineParam.item r])) := by
  cases hd : m.date_col.get_column with
  | error e =>
    simp only [MergeTree.get_params, hd] at h
    exact Except.noConfusion h
  | ok dc =>
    cases hs : m.sampling with
    | none =>
      simp only [MergeTree.get_params, hd, hs] at h
      refine ⟨dc, [], rfl, ?_, Or.inl ⟨rfl, rfl⟩⟩
      injection h with h
      subst h
      simp
    | some smp =>
      cases hr : smp.get_expressions_or_columns with
      | nil =>
        simp only [MergeTree.get_params, hd, hs, hr] at h
        exact Except.noConfusion h
      | cons r rest =>
        simp only [MergeTree.get_params, hd, hs, hr] at h
        refine ⟨dc, [EngineParam.item r], rfl, ?_, Or.inr ⟨smp, r, rest, rfl, hr, rfl⟩⟩
        injection h with h
        subst h
        simp

/-- `get_params` on an unreplicated descriptor never emits an escaped
parameter: escaping is applied to the replication coordinates only. -/
theorem MergeTree.get_params_no_escaped {m : MergeTree} {ps : List EngineParam}
    {s : String} (hrep : truthy m.replica_name = false)
    (h : m.get_params = Except.ok ps) : EngineParam.escaped s ∉ ps := by
  obtain ⟨dc, tail, _, hps, htail⟩ := MergeTree.get_params_ok h
  subst hps
  rw [hrep]
  rcases htail with ⟨_, htail⟩ | ⟨smp, r, rest, _, _, htail⟩ <;> subst htail <;> simp

/-- `TableCol._set_parent` can only fail with an unresolved column. -/
theorem TableCol.set_parent_error_tablecol {tc : TableCol} {t : Table} {e : EngineError}
    (h : tc.set_parent t = Except.error e) : e = EngineError.unknownColumn := by
  cases hr : resolveColArg t tc.pending with
  | error e' =>
    simp only [TableCol.set_parent, hr] at h
    cases h
    exact resolveColArg_error hr
  | ok c =>
    simp only [TableCol.set_parent, hr] at h
    exact Except.noConfusion h

/-- `resolveColArgs` can only fail with an unresolved column. -/
theorem resolveColArgs_error {t : Table} {args : List ColArg} {e : EngineError}
    (h : resolveColArgs t args = Except.error e) : e = EngineError.unknownColumn := by
  induction args with
  | nil => cases h
  | cons a rest ih =>
    cases ha : resolveColArg t a with
    | error e' =>
      simp only [resolveColArgs, ha] at h
      cases h
      exact resolveColArg_error ha
    | ok c =>
      cases hrest : resolveColArgs t rest with
      | error e' =>
        simp only [resolveColArgs, ha, hrest] at h
        cases h
        exact ih hrest
      | ok cs =>
        simp only [resolveColArgs, ha, hrest] at h
        exact Except.noConfusion h

/-- `KeysExpressionOrColumn._set_parent` can only fail with an unresolved
column. -/
theorem KeysExpressionOrColumn.set_parent_error_keys {k : KeysExpressionOrColumn}
    {t : Table} {e : EngineError} (h : k.set_parent t = Except.error e) :
    e = EngineError.unknownColumn := by
  cases hr : resolveColArgs t k.pending with
  | error e' =>
    simp only [KeysExpressionOrColumn.set_parent, hr] at h
    cases h
    exact resolveColArgs_error hr
  | ok cs =>
    simp only [KeysExpressionOrColumn.set_parent, hr] at h
    exact Except.noConfusion h

/-- `MergeTree._set_parent` can only fail with an unresolved column: the
construction-time validation error never occurs at attach time. -/
theorem MergeTree.set_parent_error_mergetree {m : MergeTree} {t : Table} {e : EngineError}
    (h : m.set_parent t = Except.error e) : e = EngineError.unknownColumn := by
  unfold MergeTree.set_parent at h
  split at h
  · next he =>
    cases h
    exact TableCol.set_parent_error_tablecol he
  · split at h
    · next he =>
      cases h
      exact KeysExpressionOrColumn.set_parent_error_keys he
    · split at h
      · cases h
      · split at h
        · next he =>
          cases h
          exact KeysExpressionOrColumn.set_parent_error_keys he
        · cases h

/-- `MergeTree.get_params` can only fail as a pre-attach access: the
construction-time validation error never occurs at render time. -/
theorem MergeTree.get_params_error {m : MergeTree} {e : EngineError}
    (h : m.get_params = Except.error e) : e = EngineError.notAttached := by
  cases hd : m.date_col.get_column with
  | error e' =>
    simp only [MergeTree.get_params, hd] at h
    cases h
    unfold TableCol.get_column at hd
    split at hd
    · cases hd
      rfl
    · cases hd
  | ok dc =>
    cases hs : m.sampling with
    | none =>
      simp only [MergeTree.get_params, hd, hs] at h
      exact Except.noConfusion h
    | some smp =>
      cases hr : smp.get_expressions_or_columns with
      | nil =>
        simp only [MergeTree.get_params, hd, hs, hr] at h
        cases h
        rfl
      | cons r rest =>
        simp only [MergeTree.get_params, hd, hs, hr] at h
        exact Except.noConfusion h

/-- Claim C2: for every attached MergeTree descriptor, `get_params` returns
exactly the ordered list: the escaped replication pair when replicated, the
resolved date column, the single rendered sampling slot when a sampling
expression was given, the rendered key tuple as one grouped value, and the
index granularity; its length is 2·(replicated) + 1 + (sampling) + 1 + 1. -/
theorem C2_merge_tree_params_order {dcol : ColArg} {ke : List KeyInput}
    {smp : Option KeyInput} {g : Option Int} {rn rp : Option String}
    {t : Table} {m m' : MergeTree} {ps : List EngineParam}
    (h1 : MergeTree.make dcol ke smp g rn rp = Except.ok m)
    (h2 : m.set_parent t = Except.ok m')
    (h3 : m'.get_params = Except.ok ps) :
    ∃ d tail, m'.date_col.get_column = Except.ok d ∧
      ps = (if truthy rn then
              [EngineParam.escaped (pyStr rp), EngineParam.escaped (pyStr rn)]
            else []) ++ [EngineParam.col d] ++ tail ++
            [EngineParam.keyTuple m'.key_cols.get_expressions_or_columns,
             EngineParam.int (granDefault g)] ∧
      (smp = none → tail = []) ∧
      (∀ s0, smp = some s0 → ∃ k r rest, m'.sampling = some k ∧
        k.get_expressions_or_columns = r :: rest ∧ tail = [EngineParam.item r]) ∧
      ps.length = (if truthy rn then 2 else 0) + 1 +
        (if smp.isSome then 1 else 0) + 1 + 1 := by
  obtain ⟨hguard, hm⟩ := MergeTree.make_ok h1
  subst hm
  obtain ⟨hrn, hrp, hgran, hkey, hsmp⟩ := MergeTree.set_parent_fields h2
  obtain ⟨d, tail, hd, hps, htail⟩ := MergeTree.get_params_ok h3
  rw [hrn, hrp, hgran] at hps
  have htnone : smp = none → tail = [] := by
    intro h0
    subst h0
    simp only [Option.map_none] at hsmp
    rcases htail with ⟨_, ht⟩ | ⟨k, r, rest, hk, _, _⟩
    · exact ht
    · rcases hsmp with ⟨_, hn⟩ | ⟨k0, k0', hk0, _, _⟩
      · rw [hn] at hk
        cases hk
      · cases hk0
  have htsome : ∀ s0, smp = some s0 → ∃ k r rest, m'.sampling = some k ∧
      k.get_expressions_or_columns = r :: rest ∧ tail = [EngineParam.item r] := by
    intro s0 h0
    subst h0
    rcases htail with ⟨hn, _⟩ | ⟨k, r, rest, hk, hr, ht⟩
    · rcases hsmp with ⟨hc, _⟩ | ⟨k0, k0', hk0, hk0', _⟩
      · cases hc
      · rw [hn] at hk0'
        cases hk0'
    · exact ⟨k, r, rest, hk, hr, ht⟩
  have htl : tail.length = if smp.isSome then 1 else 0 := by
    cases h0 : smp with
    | none =>
      rw [htnone h0]
      rfl
    | some s0 =>
      obtain ⟨k, r, rest, _, _, ht⟩ := htsome s0 h0
      rw [ht]
      rfl
  refine ⟨d, tail, hd, hps, htnone, htsome, ?_⟩
  rw [hps]
  simp only [List.length_append, List.length_cons, List.length_nil, htl]
  cases truthy rn <;> simp

/-- A failing `MergeTree.make`, in introduction form: a truthy guard raises
the construction-time validation error. -/
theorem MergeTree.make_error_of_guard {dc : ColArg} {ke : List KeyInput}
    {smp : Option KeyInput} {g : Option Int} {rn rp : Option String}
    (hcond : ((truthy rp && !truthy rn) || (!truthy rp && truthy rn)) = true) :
    MergeTree.make dc ke smp g rn rp = Except.error EngineError.invalidConfiguration := by
  unfold MergeTree.make
  split
  · rfl
  · next hc => exact absurd hcond hc

/-- When an optional string is never the empty string, Python truthiness
coincides with presence. -/
theorem truthy_eq_isSome {o : Option String} (h : ∀ s, o = some s → s ≠ "") :
    truthy o = o.isSome := by
  cases o with
  | none => rfl
  | some s =>
    simp only [truthy, Option.isSome_some]
    simpa using h s rfl

/-- The three-column table used by the concrete examples below. -/
def exampleTable : Table := [⟨"d"⟩, ⟨"k"⟩, ⟨"s"⟩]

/-- The replicated sampling `MergeTree` right after construction:
`MergeTree("d", ["k"], sampling="s", index_granularity=4096,
replica_name="r1", replica_table_path="/p")`. -/
def mtDeclared : MergeTree :=
  { date_col := { pending := Sum.inl "d", columns := [] }
  , key_cols := { expressions := [StoredExpr.str "k"]
                , pending := [Sum.inl "k"], columns := [] }
  , sampling := some { expressions := [StoredExpr.str "s"]
                     , pending := [Sum.inl "s"], columns := [] }
  , index_granularity := 4096
  , replica_name := some "r1"
  , replica_table_path := some "/p"
  , table := none }

/-- `mtDeclared` after attach to `exampleTable`. -/
def mtAttached : MergeTree :=
  { date_col := { pending := Sum.inl "d", columns := [⟨"d"⟩] }
  , key_cols := { expressions := [StoredExpr.str "k"]
                , pending := [Sum.inl "k"], columns := [⟨"k"⟩] }
  , sampling := some { expressions := [StoredExpr.str "s"]
                     , pending := [Sum.inl "s"], columns := [⟨"s"⟩] }
  , index_granularity := 4096
  , replica_name := some "r1"
  , replica_table_path := some "/p"
  , table := some exampleTable }

/-- Witness for C2 at the concrete replicated sampling example. -/
theorem C2_merge_tree_params_order_witness :
    ∃ d tail, mtAttached.date_col.get_column = Except.ok d ∧
      [EngineParam.escaped "/p", EngineParam.escaped "r1",
       EngineParam.col ⟨"d"⟩, EngineParam.item (Rendered.rcol ⟨"s"⟩),
       EngineParam.keyTuple [Rendered.rcol ⟨"k"⟩], EngineParam.int 4096] =
        (if truthy (some "r1") then
           [EngineParam.escaped (pyStr (some "/p")),
            EngineParam.escaped (pyStr (some "r1"))]
         else []) ++ [EngineParam.col d] ++ tail ++
        [EngineParam.keyTuple mtAttached.key_cols.get_expressions_or_columns,
         EngineParam.int (granDefault (some 4096))] ∧
      (some (KeyInput.name "s") = none → tail = []) ∧
      (∀ s0, some (KeyInput.name "s") = some s0 → ∃ k r rest,
        mtAttached.sampling = some k ∧
        k.get_expressions_or_columns = r :: rest ∧ tail = [EngineParam.item r]) ∧
      ([EngineParam.escaped "/p", EngineParam.escaped "r1",
        EngineParam.col (⟨"d"⟩ : Column), EngineParam.item (Rendered.rcol ⟨"s"⟩),
        EngineParam.keyTuple [Rendered.rcol ⟨"k"⟩],
        EngineParam.int 4096] : List EngineParam).length =
        (if truthy (some "r1") then 2 else 0) + 1 +
        (if (some (KeyInput.name "s")).isSome then 1 else 0) + 1 + 1 :=
  C2_merge_tree_params_order
    (show MergeTree.make (Sum.inl "d") [KeyInput.name "k"]
        (some (KeyInput.name "s")) (some 4096) (some "r1") (some "/p") =
        Except.ok mtDeclared from rfl)
    (show mtDeclared.set_parent exampleTable = Except.ok mtAttached from rfl)
    (show mtAttached.get_params = Except.ok
        [EngineParam.escaped "/p", EngineParam.escaped "r1",
         EngineParam.col ⟨"d"⟩, EngineParam.item (Rendered.rcol ⟨"s"⟩),
         EngineParam.keyTuple [Rendered.rcol ⟨"k"⟩], EngineParam.int 4096] from rfl)

/-- Claim C3: with genuinely present coordinates (supplied strings are
non-empty), constructing a MergeTree with exactly one of `replica_name` /
`replica_table_path` fails with the configuration error at construction
time, constructing with both or neither succeeds, and neither attach nor
render can ever produce the configuration error. -/
theorem C3_replication_both_or_none {dcol : ColArg} {ke : List KeyInput}
    {smp : Option KeyInput} {g : Option Int} {rn rp : Option String}
    (hn : ∀ s, rn = some s → s ≠ "") (hp : ∀ s, rp = some s → s ≠ "") :
    (rn.isSome ≠ rp.isSome →
      MergeTree.make dcol ke smp g rn rp =
        Except.error EngineError.invalidConfiguration) ∧
    (rn.isSome = rp.isSome →
      ∃ m, MergeTree.make dcol ke smp g rn rp = Except.ok m) ∧
    (∀ m : MergeTree, ∀ t e, m.set_parent t = Except.error e →
      e ≠ EngineError.invalidConfiguration) ∧
    (∀ m : MergeTree, ∀ e, m.get_params = Except.error e →
      e ≠ EngineError.invalidConfiguration) := by
  have htn := truthy_eq_isSome hn
  have htp := truthy_eq_isSome hp
  refine ⟨?_, ?_, ?_, ?_⟩
  · intro hne
    apply MergeTree.make_error_of_guard
    rw [htn, htp]
    cases hbn : rn.isSome <;> cases hbp : rp.isSome <;>
      rw [hbn, hbp] at hne <;> simp at hne ⊢
  · intro heq
    refine ⟨_, MergeTree.make_ok_of_guard ?_⟩
    rw [htn, htp, heq]
    cases rp.isSome <;> simp
  · intro m t e he
    rw [MergeTree.set_parent_error_mergetree he]
    simp
  · intro m e he
    rw [MergeTree.get_params_error he]
    simp

/-- Witness for C3 with one coordinate present (`replica_name="r1"`,
`replica_table_path=None`). -/
theorem C3_replication_both_or_none_witness :
    ((some "r1" : Option String).isSome ≠ (none : Option String).isSome →
      MergeTree.make (Sum.inl "d") [KeyInput.name "k"] none none
          (some "r1") none =
        Except.error EngineError.invalidConfiguration) ∧
    ((some "r1" : Option String).isSome = (none : Option String).isSome →
      ∃ m, MergeTree.make (Sum.inl "d") [KeyInput.name "k"] none none
          (some "r1") none = Except.ok m) ∧
    (∀ m : MergeTree, ∀ t e, m.set_parent t = Except.error e →
      e ≠ EngineError.invalidConfiguration) ∧
    (∀ m : MergeTree, ∀ e, m.get_params = Except.error e →
      e ≠ EngineError.invalidConfiguration) :=
  C3_replication_both_or_none
    (fun s hs => by cases hs; decide)
    (fun s hs => by cases hs)

/-- The plain unreplicated `MergeTree("d", ["k"])` right after construction,
before any attach. -/
def mtPlainDeclared : MergeTree :=
  { date_col := { pending := Sum.inl "d", columns := [] }
  , key_cols := { expressions := [StoredExpr.str "k"]
                , pending := [Sum.inl "k"], columns := [] }
  , sampling := none
  , index_granularity := 8192
  , replica_name := none
  , replica_table_path := none
  , table := none }

/-- Claim C4 is refuted on `name()`: a freshly constructed, never attached
`MergeTree` answers `name()` with the plain value `"MergeTree"` — the call
does not fail at all — even though `params()` and the column accessor do
fail before attach. -/
theorem C4_name_before_attach_counterexample :
    MergeTree.make (Sum.inl "d") [KeyInput.name "k"] none none none none =
      Except.ok mtPlainDeclared ∧
    mtPlainDeclared.name = "MergeTree" ∧
    mtPlainDeclared.get_params = Except.error EngineError.notAttached := by
  exact ⟨rfl, rfl, rfl⟩

/-- `MergeTree("d", ["k"], replica_name="r1", replica_table_path="/p")`
right after construction. -/
def mtRDeclared : MergeTree :=
  { date_col := { pending := Sum.inl "d", columns := [] }
  , key_cols := { expressions := [StoredExpr.str "k"]
                , pending := [Sum.inl "k"], columns := [] }
  , sampling := none
  , index_granularity := 8192
  , replica_name := some "r1"
  , replica_table_path := some "/p"
  , table := none }

/-- `mtRDeclared` after attach to `exampleTable`. -/
def mtRAttached : MergeTree :=
  { date_col := { pending := Sum.inl "d", columns := [⟨"d"⟩] }
  , key_cols := { expressions := [StoredExpr.str "k"]
                , pending := [Sum.inl "k"], columns := [⟨"k"⟩] }
  , sampling := none
  , index_granularity := 8192
  , replica_name := some "r1"
  , replica_table_path := some "/p"
  , table := some exampleTable }

/-- Claim C5: `name()` is `"Replicated"` plus the base type name exactly
when the descriptor is replicated and the bare base name otherwise; the
concrete replicated `MergeTree(date_col="d", key_expressions=["k"],
replica_name="r1", replica_table_path="/p")` yields
`name() = "ReplicatedMergeTree"` and its first two parameters are the
escaped path and the escaped name. -/
theorem C5_replicated_name_and_params {dcol : ColArg} {ke : List KeyInput}
    {smp : Option KeyInput} {g : Option Int} {rn rp : Option String}
    {m : MergeTree} (h : MergeTree.make dcol ke smp g rn rp = Except.ok m) :
    m.name = (if truthy rn then "Replicated" else "") ++ "MergeTree" ∧
    (MergeTree.make (Sum.inl "d") [KeyInput.name "k"] none none
        (some "r1") (some "/p") = Except.ok mtRDeclared ∧
     mtRDeclared.set_parent exampleTable = Except.ok mtRAttached ∧
     mtRAttached.name = "ReplicatedMergeTree" ∧
     ∃ ps, mtRAttached.get_params = Except.ok ps ∧
       ps.take 2 = [EngineParam.escaped "/p", EngineParam.escaped "r1"]) := by
  obtain ⟨hg, hm⟩ := MergeTree.make_ok h
  subst hm
  exact ⟨rfl, rfl, rfl, rfl, ⟨_, rfl, rfl⟩⟩

/-- Witness for C5 at the plain unreplicated concrete descriptor. -/
theorem C5_replicated_name_and_params_witness :
    mtPlainDeclared.name = (if truthy none then "Replicated" else "") ++ "MergeTree" ∧
    (MergeTree.make (Sum.inl "d") [KeyInput.name "k"] none none
        (some "r1") (some "/p") = Except.ok mtRDeclared ∧
     mtRDeclared.set_parent exampleTable = Except.ok mtRAttached ∧
     mtRAttached.name = "ReplicatedMergeTree" ∧
     ∃ ps, mtRAttached.get_params = Except.ok ps ∧
       ps.take 2 = [EngineParam.escaped "/p", EngineParam.escaped "r1"]) :=
  C5_replicated_name_and_params
    (show MergeTree.make (Sum.inl "d") [KeyInput.name "k"] none none none none =
      Except.ok mtPlainDeclared from rfl)

/-- Eliminating a successful `CollapsingMergeTree.get_params`: it is the base
`MergeTree` parameter list with the resolved sign column appended. -/
theorem CollapsingMergeTree.get_params_ok_collapsing {c : CollapsingMergeTree}
    {ps : List EngineParam} (h : c.get_params = Except.ok ps) :
    ∃ ps0 sc, c.core.get_params = Except.ok ps0 ∧
      c.sign_col.get_column = Except.ok sc ∧
      ps = ps0 ++ [EngineParam.col sc] := by
  cases h0 : c.core.get_params with
  | error e =>
    simp only [CollapsingMergeTree.get_params, h0] at h
    exact Except.noConfusion h
  | ok ps0 =>
    cases h1 : c.sign_col.get_column with
    | error e =>
      simp only [CollapsingMergeTree.get_params, h0, h1] at h
      exact Except.noConfusion h
    | ok sc =>
      simp only [CollapsingMergeTree.get_params, h0, h1] at h
      injection h with h
      exact ⟨ps0, sc, rfl, rfl, h.symm⟩

/-- Eliminating a successful `SummingMergeTree.get_params`: it is the base
parameter list, with the rendered summing tuple appended exactly when
`summing_cols` is present. -/
theorem SummingMergeTree.get_params_ok_summing {s : SummingMergeTree}
    {ps : List EngineParam} (h : s.get_params = Except.ok ps) :
    ∃ ps0, s.core.get_params = Except.ok ps0 ∧
      ((s.summing_cols = none ∧ ps = ps0) ∨
       (∃ kc, s.summing_cols = some kc ∧
         ps = ps0 ++ [EngineParam.keyTuple kc.get_expressions_or_columns])) := by
  cases h0 : s.core.get_params with
  | error e =>
    simp only [SummingMergeTree.get_params, h0] at h
    exact Except.noConfusion h
  | ok ps0 =>
    cases h1 : s.summing_cols with
    | none =>
      simp only [SummingMergeTree.get_params, h0, h1] at h
      injection h with h
      exact ⟨ps0, rfl, Or.inl ⟨rfl, h.symm⟩⟩
    | some kc =>
      simp only [SummingMergeTree.get_params, h0, h1] at h
      injection h with h
      exact ⟨ps0, rfl, Or.inr ⟨kc, rfl, h.symm⟩⟩

/-- Claim C6: the attached `CollapsingMergeTree` parameter list is the base
list with exactly the resolved sign column appended last; the attached
`SummingMergeTree` parameter list is the base list with exactly the rendered
summing tuple appended last when `summing_cols` was provided, and the base
list unchanged when it was not. -/
theorem C6_subclass_params_append
    {c : CollapsingMergeTree} {ps : List EngineParam} {sc : Column}
    (h1 : c.core.get_params = Except.ok ps)
    (h2 : c.sign_col.get_column = Except.ok sc)
    {s : SummingMergeTree} {qs : List EngineParam} {kc : KeysExpressionOrColumn}
    (h3 : s.core.get_params = Except.ok qs) (h4 : s.summing_cols = some kc)
    {s0 : SummingMergeTree} {rs : List EngineParam}
    (h5 : s0.core.get_params = Except.ok rs) (h6 : s0.summing_cols = none) :
    c.get_params = Except.ok (ps ++ [EngineParam.col sc]) ∧
    s.get_params = Except.ok (qs ++ [EngineParam.keyTuple kc.get_expressions_or_columns]) ∧
    s0.get_params = Except.ok rs := by
  refine ⟨?_, ?_, ?_⟩
  · simp only [CollapsingMergeTree.get_params, h1, h2]
  · simp only [SummingMergeTree.get_params, h3, h4]
  · simp only [SummingMergeTree.get_params, h5, h6]

/-- The four-column table used by the subclass examples. -/
def tableC : Table := [⟨"d"⟩, ⟨"k"⟩, ⟨"sg"⟩, ⟨"m1"⟩]

/-- The shared attached unreplicated base state of the subclass examples:
date column `d`, key `["k"]`, no sampling, default granularity. -/
def mtCoreAttached : MergeTree :=
  { date_col := { pending := Sum.inl "d", columns := [⟨"d"⟩] }
  , key_cols := { expressions := [StoredExpr.str "k"]
                , pending := [Sum.inl "k"], columns := [⟨"k"⟩] }
  , sampling := none
  , index_granularity := 8192
  , replica_name := none
  , replica_table_path := none
  , table := some tableC }

/-- An attached `CollapsingMergeTree("d", ["k"], "sg")`. -/
def cmtAttached : CollapsingMergeTree :=
  { core := mtCoreAttached
  , sign_col := { pending := Sum.inl "sg", columns := [⟨"sg"⟩] } }

/-- An attached `SummingMergeTree("d", ["k"], summing_cols=["m1"])`. -/
def smtAttached : SummingMergeTree :=
  { core := mtCoreAttached
  , summing_cols := some { expressions := [StoredExpr.str "m1"]
                         , pending := [Sum.inl "m1"], columns := [⟨"m1"⟩] } }

/-- An attached `SummingMergeTree("d", ["k"])` without summing columns. -/
def smtNoSum : SummingMergeTree :=
  { core := mtCoreAttached, summing_cols := none }

/-- Witness for C6 at the three concrete attached subclass descriptors. -/
theorem C6_subclass_params_append_witness :
    cmtAttached.get_params = Except.ok
      ([EngineParam.col ⟨"d"⟩, EngineParam.keyTuple [Rendered.rcol ⟨"k"⟩],
        EngineParam.int 8192] ++ [EngineParam.col ⟨"sg"⟩]) ∧
    smtAttached.get_params = Except.ok
      ([EngineParam.col ⟨"d"⟩, EngineParam.keyTuple [Rendered.rcol ⟨"k"⟩],
        EngineParam.int 8192] ++ [EngineParam.keyTuple [Rendered.rcol ⟨"m1"⟩]]) ∧
    smtNoSum.get_params = Except.ok
      [EngineParam.col ⟨"d"⟩, EngineParam.keyTuple [Rendered.rcol ⟨"k"⟩],
       EngineParam.int 8192] :=
  C6_subclass_params_append
    (show mtCoreAttached.get_params = Except.ok
      [EngineParam.col ⟨"d"⟩, EngineParam.keyTuple [Rendered.rcol ⟨"k"⟩],
       EngineParam.int 8192] from rfl)
    (show cmtAttached.sign_col.get_column = Except.ok ⟨"sg"⟩ from rfl)
    (show smtAttached.core.get_params = Except.ok
      [EngineParam.col ⟨"d"⟩, EngineParam.keyTuple [Rendered.rcol ⟨"k"⟩],
       EngineParam.int 8192] from rfl)
    (show smtAttached.summing_cols = some
      { expressions := [StoredExpr.str "m1"]
      , pending := [Sum.inl "m1"], columns := [⟨"m1"⟩] } from rfl)
    (show smtNoSum.core.get_params = Except.ok
      [EngineParam.col ⟨"d"⟩, EngineParam.keyTuple [Rendered.rcol ⟨"k"⟩],
       EngineParam.int 8192] from rfl)
    (show smtNoSum.summing_cols = none from rfl)

/-- Claim C7: a MergeTree constructed without `index_granularity` carries
8192; any supplied integer, 0 and negatives included, is carried exactly and
does not make construction fail. -/
theorem C7_granularity_default {dcol : ColArg} {ke : List KeyInput}
    {smp : Option KeyInput} {rn rp : Option String} {g : Int} {m : MergeTree}
    (h1 : MergeTree.make dcol ke smp none rn rp = Except.ok m)
    (hc : truthy rn = truthy rp) :
    m.index_granularity = 8192 ∧
    ∃ m', MergeTree.make dcol ke smp (some g) rn rp = Except.ok m' ∧
      m'.index_granularity = g := by
  obtain ⟨hg0, hm⟩ := MergeTree.make_ok h1
  subst hm
  refine ⟨rfl, _, MergeTree.make_ok_of_guard ?_, rfl⟩
  rw [hc]
  cases truthy rp <;> simp

/-- Witness for C7 with supplied granularity 0. -/
theorem C7_granularity_default_witness :
    mtPlainDeclared.index_granularity = 8192 ∧
    ∃ m', MergeTree.make (Sum.inl "d") [KeyInput.name "k"] none (some 0)
        none none = Except.ok m' ∧ m'.index_granularity = 0 :=
  C7_granularity_default
    (show MergeTree.make (Sum.inl "d") [KeyInput.name "k"] none none none none =
      Except.ok mtPlainDeclared from rfl)
    (show truthy none = truthy none from rfl)

/-- The state-passing rendering agrees with the direct one and returns the
descriptor unchanged, on every branch of the body. -/
theorem MergeTree.get_paramsS_eq (m : MergeTree) :
    m.get_paramsS = (m.get_params, m) := by
  cases hd : m.date_col.get_column with
  | error e =>
    simp only [MergeTree.get_paramsS, MergeTree.get_params, hd]
  | ok dc =>
    cases hs : m.sampling with
    | none =>
      simp only [MergeTree.get_paramsS, MergeTree.get_params, hd, hs]
    | some smp =>
      cases hr : smp.get_expressions_or_columns with
      | nil =>
        simp only [MergeTree.get_paramsS, MergeTree.get_params, hd, hs, hr]
      | cons r rest =>
        simp only [MergeTree.get_paramsS, MergeTree.get_params, hd, hs, hr]

/-- Claim C8: `get_params` is deterministic and side-effect-free.  In the
statement-by-statement state-passing reading of the body, a call returns the
descriptor with every field (and hence every owned child) unchanged, agrees
with the direct rendering, and an immediately repeated call on the returned
state produces the identical result — for `MergeTree` and for `Buffer`. -/
theorem C8_get_params_pure (m : MergeTree) (b : Buffer) :
    m.get_paramsS = (m.get_params, m) ∧
    (m.get_paramsS).2.get_paramsS = m.get_paramsS ∧
    b.get_paramsS = (b.get_params, b) ∧
    (b.get_paramsS).2.get_paramsS = b.get_paramsS := by
  refine ⟨MergeTree.get_paramsS_eq m, ?_, rfl, rfl⟩
  rw [MergeTree.get_paramsS_eq m]
  exact MergeTree.get_paramsS_eq m

/-- Claim C9: replication presence is judged by string truthiness, not by
argument presence.  Constructing with both coordinates equal to `""`
succeeds and the descriptor behaves as unreplicated — bare `name()` before
and after attach, and no escaped replication entry in `params()` — while
constructing with exactly one coordinate `""` and the other non-empty fails
at construction. -/
theorem C9_empty_replication_truthiness {dcol : ColArg} {ke : List KeyInput}
    {smp : Option KeyInput} {g : Option Int} {t : Table} {m m' : MergeTree}
    {ps : List EngineParam}
    (h1 : MergeTree.make dcol ke smp g (some "") (some "") = Except.ok m)
    (h2 : m.set_parent t = Except.ok m')
    (h3 : m'.get_params = Except.ok ps) :
    m.name = "MergeTree" ∧ m'.name = "MergeTree" ∧
    (∀ s, EngineParam.escaped s ∉ ps) ∧
    (∀ dcol2 : ColArg, ∀ ke2 : List KeyInput, ∀ smp2 : Option KeyInput,
      ∀ g2 : Option Int, ∃ m0,
      MergeTree.make dcol2 ke2 smp2 g2 (some "") (some "") = Except.ok m0) ∧
    (∀ s : String, s ≠ "" →
      MergeTree.make dcol ke smp g (some "") (some s) =
        Except.error EngineError.invalidConfiguration ∧
      MergeTree.make dcol ke smp g (some s) (some "") =
        Except.error EngineError.invalidConfiguration) := by
  obtain ⟨hg, hm⟩ := MergeTree.make_ok h1
  subst hm
  obtain ⟨hrn, hrp, hgran, hkey, hsmp⟩ := MergeTree.set_parent_fields h2
  have hrepl : truthy m'.replica_name = false := by
    rw [hrn]
    rfl
  refine ⟨rfl, ?_, ?_, ?_, ?_⟩
  · simp only [MergeTree.name, hrepl]
    rfl
  · intro s
    exact MergeTree.get_params_no_escaped hrepl h3
  · intro dcol2 ke2 smp2 g2
    exact ⟨_, MergeTree.make_ok_of_guard rfl⟩
  · intro s hs
    have hb : (s == "") = false := by
      simpa using hs
    constructor
    · apply MergeTree.make_error_of_guard
      simp [truthy, hb]
    · apply MergeTree.make_error_of_guard
      simp [truthy, hb]

/-- `MergeTree("d", ["k"], replica_name="", replica_table_path="")` right
after construction. -/
def mtEmptyRepl : MergeTree :=
  { date_col := { pending := Sum.inl "d", columns := [] }
  , key_cols := { expressions := [StoredExpr.str "k"]
                , pending := [Sum.inl "k"], columns := [] }
  , sampling := none
  , index_granularity := 8192
  , replica_name := some ""
  , replica_table_path := some ""
  , table := none }

/-- `mtEmptyRepl` after attach to `exampleTable`. -/
def mtEmptyReplAttached : MergeTree :=
  { date_col := { pending := Sum.inl "d", columns := [⟨"d"⟩] }
  , key_cols := { expressions := [StoredExpr.str "k"]
                , pending := [Sum.inl "k"], columns := [⟨"k"⟩] }
  , sampling := none
  , index_granularity := 8192
  , replica_name := some ""
  , replica_table_path := some ""
  , table := some exampleTable }

/-- Witness for C9 at the concrete empty-string-replication descriptor. -/
theorem C9_empty_replication_truthiness_witness :
    mtEmptyRepl.name = "MergeTree" ∧ mtEmptyReplAttached.name = "MergeTree" ∧
    (∀ s, EngineParam.escaped s ∉
      [EngineParam.col (⟨"d"⟩ : Column),
       EngineParam.keyTuple [Rendered.rcol ⟨"k"⟩], EngineParam.int 8192]) ∧
    (∀ dcol2 : ColArg, ∀ ke2 : List KeyInput, ∀ smp2 : Option KeyInput,
      ∀ g2 : Option Int, ∃ m0,
      MergeTree.make dcol2 ke2 smp2 g2 (some "") (some "") = Except.ok m0) ∧
    (∀ s : String, s ≠ "" →
      MergeTree.make (Sum.inl "d") [KeyInput.name "k"] none none
          (some "") (some s) = Except.error EngineError.invalidConfiguration ∧
      MergeTree.make (Sum.inl "d") [KeyInput.name "k"] none none
          (some s) (some "") = Except.error EngineError.invalidConfiguration) :=
  C9_empty_replication_truthiness
    (show MergeTree.make (Sum.inl "d") [KeyInput.name "k"] none none
        (some "") (some "") = Except.ok mtEmptyRepl from rfl)
    (show mtEmptyRepl.set_parent exampleTable = Except.ok mtEmptyReplAttached from rfl)
    (show mtEmptyReplAttached.get_params = Except.ok
      [EngineParam.col ⟨"d"⟩, EngineParam.keyTuple [Rendered.rcol ⟨"k"⟩],
       EngineParam.int 8192] from rfl)

/-- Eliminating a successful `CollapsingMergeTree.make`: the base
constructor ran with no replication coordinates. -/
theorem CollapsingMergeTree.make_ok_collapsing {dcol : ColArg} {ke : List KeyInput}
    {sg : ColArg} {smp : Option KeyInput} {g : Option Int}
    {c : CollapsingMergeTree}
    (h : CollapsingMergeTree.make dcol ke sg smp g = Except.ok c) :
    ∃ core, MergeTree.make dcol ke smp g none none = Except.ok core ∧
      c = { core := core, sign_col := TableCol.make sg } := by
  cases h0 : MergeTree.make dcol ke smp g none none with
  | error e =>
    simp only [CollapsingMergeTree.make, h0] at h
    exact Except.noConfusion h
  | ok core =>
    simp only [CollapsingMergeTree.make, h0] at h
    injection h with h
    exact ⟨core, rfl, h.symm⟩

/-- Eliminating a successful `SummingMergeTree.make`: the base constructor
ran with no replication coordinates. -/
theorem SummingMergeTree.make_ok_summing {dcol : ColArg} {ke : List KeyInput}
    {sumc : Option (List KeyInput)} {smp : Option KeyInput} {g : Option Int}
    {s : SummingMergeTree}
    (h : SummingMergeTree.make dcol ke sumc smp g = Except.ok s) :
    ∃ core, MergeTree.make dcol ke smp g none none = Except.ok core ∧
      s = { core := core
          , summing_cols := sumc.map KeysExpressionOrColumn.ofInputs } := by
  cases h0 : MergeTree.make dcol ke smp g none none with
  | error e =>
    simp only [SummingMergeTree.make, h0] at h
    exact Except.noConfusion h
  | ok core =>
    simp only [SummingMergeTree.make, h0] at h
    injection h with h
    exact ⟨core, rfl, h.symm⟩

/-- Eliminating a successful `CollapsingMergeTree._set_parent`: the base
state attached successfully and is the core of the result. -/
theorem CollapsingMergeTree.set_parent_ok_collapsing {c : CollapsingMergeTree}
    {t : Table} {c' : CollapsingMergeTree} (h : c.set_parent t = Except.ok c') :
    ∃ core', c.core.set_parent t = Except.ok core' ∧ c'.core = core' := by
  cases h0 : c.core.set_parent t with
  | error e =>
    simp only [CollapsingMergeTree.set_parent, h0] at h
    exact Except.noConfusion h
  | ok core' =>
    cases h1 : c.sign_col.set_parent t with
    | error e =>
      simp only [CollapsingMergeTree.set_parent, h0, h1] at h
      exact Except.noConfusion h
    | ok sc =>
      simp only [CollapsingMergeTree.set_parent, h0, h1] at h
      injection h with h
      rw [← h]
      exact ⟨core', rfl, rfl⟩

/-- Eliminating a successful `SummingMergeTree._set_parent`: the base state
attached successfully and is the core of the result. -/
theorem SummingMergeTree.set_parent_ok_summing {s : SummingMergeTree}
    {t : Table} {s' : SummingMergeTree} (h : s.set_parent t = Except.ok s') :
    ∃ core', s.core.set_parent t = Except.ok core' ∧ s'.core = core' := by
  cases h0 : s.core.set_parent t with
  | error e =>
    simp only [SummingMergeTree.set_parent, h0] at h
    exact Except.noConfusion h
  | ok core' =>
    cases h1 : s.summing_cols with
    | none =>
      simp only [SummingMergeTree.set_parent, h0, h1] at h
      injection h with h
      rw [← h]
      exact ⟨core', rfl, rfl⟩
    | some kc =>
      cases h2 : kc.set_parent t with
      | error e =>
        simp only [SummingMergeTree.set_parent, h0, h1, h2] at h
        exact Except.noConfusion h
      | ok kc2 =>
        simp only [SummingMergeTree.set_parent, h0, h1, h2] at h
        injection h with h
        rw [← h]
        exact ⟨core', rfl, rfl⟩

/-- Claim C10: every `CollapsingMergeTree` and every `SummingMergeTree` is
permanently unreplicated — their constructors pass no replication
coordinates, so both coordinates are `None`, `name()` is exactly the bare
class name before and after attach, and `params()` never contains an escaped
replication entry. -/
theorem C10_variants_never_replicated {dcol : ColArg} {ke : List KeyInput}
    {sg : ColArg} {smp : Option KeyInput} {g : Option Int}
    {c : CollapsingMergeTree}
    (hc : CollapsingMergeTree.make dcol ke sg smp g = Except.ok c)
    {dcol2 : ColArg} {ke2 : List KeyInput} {sumc : Option (List KeyInput)}
    {smp2 : Option KeyInput} {g2 : Option Int} {s : SummingMergeTree}
    (hs : SummingMergeTree.make dcol2 ke2 sumc smp2 g2 = Except.ok s) :
    c.core.replica_name = none ∧ c.core.replica_table_path = none ∧
    c.name = "CollapsingMergeTree" ∧
    s.core.replica_name = none ∧ s.core.replica_table_path = none ∧
    s.name = "SummingMergeTree" ∧
    (∀ t c', c.set_parent t = Except.ok c' →
      c'.name = "CollapsingMergeTree" ∧
      ∀ ps str, c'.get_params = Except.ok ps → EngineParam.escaped str ∉ ps) ∧
    (∀ t s', s.set_parent t = Except.ok s' →
      s'.name = "SummingMergeTree" ∧
      ∀ ps str, s'.get_params = Except.ok ps → EngineParam.escaped str ∉ ps) := by
  obtain ⟨core, hcore, hceq⟩ := CollapsingMergeTree.make_ok_collapsing hc
  obtain ⟨hgd, hcm⟩ := MergeTree.make_ok hcore
  subst hceq
  subst hcm
  obtain ⟨score, hscore, hseq⟩ := SummingMergeTree.make_ok_summing hs
  obtain ⟨hgd2, hsm⟩ := MergeTree.make_ok hscore
  subst hseq
  subst hsm
  refine ⟨rfl, rfl, rfl, rfl, rfl, rfl, ?_, ?_⟩
  · intro t c' hsp
    obtain ⟨core', hspc, hcc⟩ := CollapsingMergeTree.set_parent_ok_collapsing hsp
    obtain ⟨hrn, hrp, _, _, _⟩ := MergeTree.set_parent_fields hspc
    have hrepl : truthy c'.core.replica_name = false := by
      rw [hcc, hrn]
      rfl
    constructor
    · simp only [CollapsingMergeTree.name, hrepl]
      rfl
    · intro ps str hps
      obtain ⟨ps0, sc, h0, h1, hpseq⟩ := CollapsingMergeTree.get_params_ok_collapsing hps
      subst hpseq
      have hne := MergeTree.get_params_no_escaped (s := str) (by rw [hcc]; rw [hcc] at hrepl; exact hrepl) h0
      simp only [List.mem_append, List.mem_singleton]
      rintro (hin | hin)
      · exact hne hin
      · cases hin
  · intro t s' hsp
    obtain ⟨core', hspc, hcc⟩ := SummingMergeTree.set_parent_ok_summing hsp
    obtain ⟨hrn, hrp, _, _, _⟩ := MergeTree.set_parent_fields hspc
    have hrepl : truthy s'.core.replica_name = false := by
      rw [hcc, hrn]
      rfl
    constructor
    · simp only [SummingMergeTree.name, hrepl]
      rfl
    · intro ps str hps
      obtain ⟨ps0, h0, hrest⟩ := SummingMergeTree.get_params_ok_summing hps
      have hne := MergeTree.get_params_no_escaped (s := str) (by rw [hcc]; rw [hcc] at hrepl; exact hrepl) h0
      rcases hrest with ⟨_, hpseq⟩ | ⟨kc, _, hpseq⟩
      · subst hpseq
        exact hne
      · subst hpseq
        simp only [List.mem_append, List.mem_singleton]
        rintro (hin | hin)
        · exact hne hin
        · cases hin

/-- `CollapsingMergeTree("d", ["k"], "sg")` right after construction. -/
def cmtDeclared : CollapsingMergeTree :=
  { core := mtPlainDeclared
  , sign_col := { pending := Sum.inl "sg", columns := [] } }

/-- `SummingMergeTree("d", ["k"], summing_cols=["m1"])` right after
construction. -/
def smtDeclared : SummingMergeTree :=
  { core := mtPlainDeclared
  , summing_cols := some { expressions := [StoredExpr.str "m1"]
                         , pending := [Sum.inl "m1"], columns := [] } }

/-- Witness for C10 at the two concrete subclass constructions. -/
theorem C10_variants_never_replicated_witness :
    cmtDeclared.core.replica_name = none ∧
    cmtDeclared.core.replica_table_path = none ∧
    cmtDeclared.name = "CollapsingMergeTree" ∧
    smtDeclared.core.replica_name = none ∧
    smtDeclared.core.replica_table_path = none ∧
    smtDeclared.name = "SummingMergeTree" ∧
    (∀ t c', cmtDeclared.set_parent t = Except.ok c' →
      c'.name = "CollapsingMergeTree" ∧
      ∀ ps str, c'.get_params = Except.ok ps → EngineParam.escaped str ∉ ps) ∧
    (∀ t s', smtDeclared.set_parent t = Except.ok s' →
      s'.name = "SummingMergeTree" ∧
      ∀ ps str, s'.get_params = Except.ok ps → EngineParam.escaped str ∉ ps) :=
  C10_variants_never_replicated
    (show CollapsingMergeTree.make (Sum.inl "d") [KeyInput.name "k"]
      (Sum.inl "sg") none none = Except.ok cmtDeclared from rfl)
    (show SummingMergeTree.make (Sum.inl "d") [KeyInput.name "k"]
      (some [KeyInput.name "m1"]) none none = Except.ok smtDeclared from rfl)

/-- Claim C4, amended: for every freshly constructed (not yet attached)
MergeTree-family descriptor — MergeTree, CollapsingMergeTree,
SummingMergeTree — `params()` and the column accessor fail with the
not-attached error, while `name()` succeeds without requiring attach and
returns the class name; the engines without column references (Buffer,
Memory, Merge) answer `params()` successfully with no attach at all. -/
theorem C4_pre_attach_accessors_fail {dcol : ColArg} {ke : List KeyInput}
    {smp : Option KeyInput} {g : Option Int} {rn rp : Option String}
    {m : MergeTree} (h : MergeTree.make dcol ke smp g rn rp = Except.ok m)
    {dcol2 : ColArg} {ke2 : List KeyInput} {sg : ColArg}
    {smp2 : Option KeyInput} {g2 : Option Int} {c : CollapsingMergeTree}
    (hc : CollapsingMergeTree.make dcol2 ke2 sg smp2 g2 = Except.ok c)
    {dcol3 : ColArg} {ke3 : List KeyInput} {sumc : Option (List KeyInput)}
    {smp3 : Option KeyInput} {g3 : Option Int} {s : SummingMergeTree}
    (hs : SummingMergeTree.make dcol3 ke3 sumc smp3 g3 = Except.ok s) :
    m.get_params = Except.error EngineError.notAttached ∧
    m.date_col.get_column = Except.error EngineError.notAttached ∧
    m.name = (if truthy rn then "Replicated" else "") ++ "MergeTree" ∧
    c.get_params = Except.error EngineError.notAttached ∧
    c.sign_col.get_column = Except.error EngineError.notAttached ∧
    c.name = "CollapsingMergeTree" ∧
    s.get_params = Except.error EngineError.notAttached ∧
    s.name = "SummingMergeTree" ∧
    (∀ b : Buffer, b.get_params =
      [EngineParam.str b.database, EngineParam.str b.table_name,
       EngineParam.int b.num_layers, EngineParam.int b.min_time,
       EngineParam.int b.max_time, EngineParam.int b.min_rows,
       EngineParam.int b.max_rows, EngineParam.int b.min_bytes,
       EngineParam.int b.max_bytes]) ∧
    (∀ mem : Memory, mem.get_params = ([] : List EngineParam)) ∧
    (∀ mg : Merge, mg.get_params =
      [EngineParam.str mg.db, EngineParam.escaped mg.regexp]) := by
  obtain ⟨hg, hm⟩ := MergeTree.make_ok h
  subst hm
  obtain ⟨ccore, hccore, hceq⟩ := CollapsingMergeTree.make_ok_collapsing hc
  obtain ⟨hgc, hcm⟩ := MergeTree.make_ok hccore
  subst hceq
  subst hcm
  obtain ⟨score, hscore, hseq⟩ := SummingMergeTree.make_ok_summing hs
  obtain ⟨hgs, hsm⟩ := MergeTree.make_ok hscore
  subst hseq
  subst hsm
  exact ⟨rfl, rfl, rfl, rfl, rfl, rfl, rfl, rfl,
    fun b => rfl, fun mem => rfl, fun mg => rfl⟩

/-- Witness for the amended C4 at the three plain concrete family
descriptors. -/
theorem C4_pre_attach_accessors_fail_witness :
    mtPlainDeclared.get_params = Except.error EngineError.notAttached ∧
    mtPlainDeclared.date_col.get_column = Except.error EngineError.notAttached ∧
    mtPlainDeclared.name = (if truthy none then "Replicated" else "") ++ "MergeTree" ∧
    cmtDeclared.get_params = Except.error EngineError.notAttached ∧
    cmtDeclared.sign_col.get_column = Except.error EngineError.notAttached ∧
    cmtDeclared.name = "CollapsingMergeTree" ∧
    smtDeclared.get_params = Except.error EngineError.notAttached ∧
    smtDeclared.name = "SummingMergeTree" ∧
    (∀ b : Buffer, b.get_params =
      [EngineParam.str b.database, EngineParam.str b.table_name,
       EngineParam.int b.num_layers, EngineParam.int b.min_time,
       EngineParam.int b.max_time, EngineParam.int b.min_rows,
       EngineParam.int b.max_rows, EngineParam.int b.min_bytes,
       EngineParam.int b.max_bytes]) ∧
    (∀ mem : Memory, mem.get_params = ([] : List EngineParam)) ∧
    (∀ mg : Merge, mg.get_params =
      [EngineParam.str mg.db, EngineParam.escaped mg.regexp]) :=
  C4_pre_attach_accessors_fail
    (show MergeTree.make (Sum.inl "d") [KeyInput.name "k"] none none none none =
      Except.ok mtPlainDeclared from rfl)
    (show CollapsingMergeTree.make (Sum.inl "d") [KeyInput.name "k"]
      (Sum.inl "sg") none none = Except.ok cmtDeclared from rfl)
    (show SummingMergeTree.make (Sum.inl "d") [KeyInput.name "k"]
      (some [KeyInput.name "m1"]) none none = Except.ok smtDeclared from rfl)
